import Mathlib

/-!
# Memory module of `src/memory/main.cpp`

A shallow embedding of `MemoryModule::b_transport` (the transaction processor of the
simulated memory) together with the data it works on.

* `uint64_t` and `unsigned int` values are natural numbers; every arithmetic operation the
  source performs on them is reduced modulo `2 ^ 64` where it can leave the range.
* `sc_time` is the simulation kernel's duration type, a 64-bit count of picoseconds (the
  kernel's default time resolution); every sum `delay += ...` is reduced modulo `2 ^ 64`.
* The byte array behind `scml2::memory<unsigned char>` is a list of bytes; the buffer a
  transaction's data pointer refers to is a list of bytes as well.
-/

namespace MemorySim

/-! ## Time -/

/-- Picoseconds in one nanosecond: the time unit `SC_NS` at the default resolution. -/
def SC_NS : Nat := 1000

/-- Constructor `sc_time(v, unit)`: a duration in picoseconds. -/
def sc_time (v : Nat) (tu : Nat) : Nat := v * tu

/-! ## Transactions -/

/-- Enumeration `tlm::tlm_command`. -/
inductive tlm_command where
  | TLM_READ_COMMAND
  | TLM_WRITE_COMMAND
  | TLM_IGNORE_COMMAND
  deriving DecidableEq, Repr

/-- Enumeration `tlm::tlm_response_status`. -/
inductive tlm_response_status where
  | TLM_OK_RESPONSE
  | TLM_INCOMPLETE_RESPONSE
  | TLM_GENERIC_ERROR_RESPONSE
  | TLM_ADDRESS_ERROR_RESPONSE
  | TLM_COMMAND_ERROR_RESPONSE
  | TLM_BURST_ERROR_RESPONSE
  | TLM_BYTE_ENABLE_ERROR_RESPONSE
  deriving DecidableEq, Repr

/-- The fields of `tlm::tlm_generic_payload` that `b_transport` reads or writes.
`data_ptr` is the caller's buffer the data pointer refers to. -/
structure tlm_generic_payload where
  command : tlm_command
  address : Nat
  data_ptr : List Nat
  data_length : Nat
  response_status : tlm_response_status
  deriving DecidableEq, Repr

/-! ## The store -/

/-- The byte store `scml2::memory<unsigned char>` with its two default latencies. -/
structure scml2_memory where
  storage : List Nat
  default_read_latency : Nat
  default_write_latency : Nat
  deriving DecidableEq, Repr

/-- Accessor `memory.get_size()`: the number of bytes of the store. -/
def scml2_memory.get_size (mem : scml2_memory) : Nat := mem.storage.length

/-- Library primitive `memory.write(address, data, size)`: copies `size` bytes from the start
of the buffer `data` into the store at `address`. An access that does not lie inside the
store transfers nothing. -/
def scml2_memory.write (mem : scml2_memory) (address : Nat) (data : List Nat) (size : Nat) :
    scml2_memory :=
  if address + size ≤ mem.get_size then
    { mem with
      storage := (List.range size).foldl
        (fun s k => s.set (address + k) (data.getD k 0)) mem.storage }
  else mem

/-- Library primitive `memory.read(address, data, size)`: copies `size` bytes of the store at
`address` to the start of the buffer `data`; the result is the buffer afterwards. An access
that does not lie inside the store transfers nothing. -/
def scml2_memory.read (mem : scml2_memory) (address : Nat) (data : List Nat) (size : Nat) :
    List Nat :=
  if address + size ≤ mem.get_size then
    (List.range size).foldl
      (fun buf k => buf.set k (mem.storage.getD (address + k) 0)) data
  else data

/-! ## The memory module -/

/-- State of `MemoryModule`: the store, the byte counter and the constants set at
construction. -/
structure MemoryModule where
  memory : scml2_memory
  total_bytes_transferred : Nat
  memory_size : Nat
  max_burst_length : Nat
  max_allowed_latency : Nat
  deriving DecidableEq, Repr

/-- The constructor `SC_CTOR(MemoryModule)`: a store of `1024 * 1024` bytes, read latency
10 ns, write latency 20 ns, counter 0, latency ceiling 100 ns. -/
def MemoryModule.SC_CTOR : MemoryModule :=
  { memory :=
      { storage := List.replicate (1024 * 1024) 0
        default_read_latency := sc_time 10 SC_NS
        default_write_latency := sc_time 20 SC_NS }
    total_bytes_transferred := 0
    memory_size := 1024 * 16
    max_burst_length := 16
    max_allowed_latency := sc_time 100 SC_NS }

/-- What a call of `b_transport` leaves behind: the module, the transaction (its buffer
and its response status) and the delay, which the source passes by reference. -/
structure b_transport_result where
  module : MemoryModule
  trans : tlm_generic_payload
  delay : Nat
  deriving DecidableEq, Repr

/-- The write loop `for (i = 0; i < length; ++i) memory.write(addr + i, data_ptr, 1)`;
`addr + i` is a `uint64_t` sum. -/
def write_loop (mem : scml2_memory) (addr : Nat) (data_ptr : List Nat) (length : Nat) :
    scml2_memory :=
  (List.range length).foldl
    (fun s i => s.write ((addr + i) % 2 ^ 64) data_ptr 1) mem

/-- The read loop `for (i = 0; i < length; ++i) memory.read(addr + i, data_ptr, 1)`;
the result is the caller's buffer after the loop. -/
def read_loop (mem : scml2_memory) (addr : Nat) (data_ptr : List Nat) (length : Nat) :
    List Nat :=
  (List.range length).foldl
    (fun buf i => mem.read ((addr + i) % 2 ^ 64) buf 1) data_ptr

/-- The tail of `b_transport` after the memory operation: the timeout check and the final
status. -/
def timeout_check (m : MemoryModule) (trans : tlm_generic_payload) (delay : Nat) :
    b_transport_result :=
  if delay > m.max_allowed_latency then
    { module := m
      trans := { trans with response_status := tlm_response_status.TLM_GENERIC_ERROR_RESPONSE }
      delay := delay }
  else
    { module := m
      trans := { trans with response_status := tlm_response_status.TLM_OK_RESPONSE }
      delay := delay }

/-- Callback `MemoryModule::b_transport(trans, delay)`. The sums `addr + length`,
`total_bytes_transferred += length` and `delay += latency` are 64-bit sums. -/
def MemoryModule.b_transport (m : MemoryModule) (trans : tlm_generic_payload) (delay : Nat) :
    b_transport_result :=
  let cmd := trans.command
  let addr := trans.address
  let data_ptr := trans.data_ptr
  let length := trans.data_length
  if (addr + length) % 2 ^ 64 > m.memory.get_size then
    { module := m
      trans := { trans with response_status := tlm_response_status.TLM_ADDRESS_ERROR_RESPONSE }
      delay := delay }
  else if cmd = tlm_command.TLM_WRITE_COMMAND then
    timeout_check
      { m with
        memory := write_loop m.memory addr data_ptr length
        total_bytes_transferred := (m.total_bytes_transferred + length) % 2 ^ 64 }
      trans
      ((delay + m.memory.default_write_latency) % 2 ^ 64)
  else if cmd = tlm_command.TLM_READ_COMMAND then
    timeout_check
      { m with
        total_bytes_transferred := (m.total_bytes_transferred + length) % 2 ^ 64 }
      { trans with data_ptr := read_loop m.memory addr data_ptr length }
      ((delay + m.memory.default_read_latency) % 2 ^ 64)
  else
    { module := m
      trans := { trans with response_status := tlm_response_status.TLM_COMMAND_ERROR_RESPONSE }
      delay := delay }

/-- A sequence of calls of `b_transport`, each with its transaction and incoming delay,
issued one after the other on the same module. -/
def run_transactions (m : MemoryModule) : List (tlm_generic_payload × Nat) → MemoryModule
  | [] => m
  | (t, d) :: rest => run_transactions (m.b_transport t d).module rest

/-- A small module used in the examples: the given store contents and counter, with the
latencies and the ceiling of the constructor. -/
def module_with (bytes : List Nat) (count : Nat) : MemoryModule :=
  { MemoryModule.SC_CTOR with
    memory := { MemoryModule.SC_CTOR.memory with storage := bytes }
    total_bytes_transferred := count }

/-- A transaction as a caller sets it up: response status still incomplete. -/
def mk_trans (cmd : tlm_command) (addr : Nat) (data : List Nat) (len : Nat) :
    tlm_generic_payload :=
  { command := cmd, address := addr, data_ptr := data, data_length := len
    response_status := tlm_response_status.TLM_INCOMPLETE_RESPONSE }

/-! ## The traffic generator -/

/-- Constant `TrafficGenerator::cycle_period`: the clock period of 10 ns. -/
def TrafficGenerator.cycle_period : Nat := sc_time 10 SC_NS

/-- Constant `TrafficGenerator::memory_size`, in bytes. -/
def TrafficGenerator.memory_size : Nat := 1024

/-- Constant `TrafficGenerator::max_burst_length`, in bytes; also the size of the local
buffer `data`. -/
def TrafficGenerator.max_burst_length : Nat := 16

/-- The fill loop `for (i = 0; i < length; ++i) data[i] = rand() % 256` of a Write; the
calls of `rand()` in the loop return `rnd next`, `rnd (next + 1)`, and so on. -/
def TrafficGenerator.fill_loop (rnd : Nat → Nat) (next : Nat) (data : List Nat)
    (length : Nat) : List Nat :=
  (List.range length).foldl (fun buf i => buf.set i (rnd (next + i) % 256)) data

/-- One iteration of `TrafficGenerator::generate_traffic` up to the call of `b_transport`:
the transaction and the incoming delay it builds. The k-th call of `rand()` in the
iteration returns `rnd k`, a non-negative value; `scratch` is the content the local
buffer `data` happens to hold when the iteration starts. The sum `delay += cycle_period`
is a 64-bit `sc_time` sum. -/
def TrafficGenerator.build_transaction (rnd : Nat → Nat) (scratch : List Nat) :
    tlm_generic_payload × Nat :=
  let is_write := rnd 0 % 2 ≠ 0
  let addr := rnd 1 % (TrafficGenerator.memory_size - TrafficGenerator.max_burst_length)
  let length := rnd 2 % TrafficGenerator.max_burst_length + 1
  let data := scratch
  let delay := (sc_time (rnd 3 % 10) SC_NS + TrafficGenerator.cycle_period) % 2 ^ 64
  if is_write then
    ({ command := tlm_command.TLM_WRITE_COMMAND
       address := addr
       data_ptr := TrafficGenerator.fill_loop rnd 4 data length
       data_length := length
       response_status := tlm_response_status.TLM_INCOMPLETE_RESPONSE }, delay)
  else
    ({ command := tlm_command.TLM_READ_COMMAND
       address := addr
       data_ptr := data
       data_length := length
       response_status := tlm_response_status.TLM_INCOMPLETE_RESPONSE }, delay)

/-- The integer value of a `tlm::tlm_command`, which is what the output stream prints. -/
def command_value : tlm_command → Nat
  | tlm_command.TLM_READ_COMMAND => 0
  | tlm_command.TLM_WRITE_COMMAND => 1
  | tlm_command.TLM_IGNORE_COMMAND => 2

/-- Output of `std::hex << addr`: the address in lower-case hexadecimal digits. -/
def hex (addr : Nat) : String := String.mk (Nat.toDigits 16 addr)

/-- The status switch at the end of an iteration of `generate_traffic`: the line written
to the error stream for a response status, if any. -/
def TrafficGenerator.diagnostic (status : tlm_response_status) (command : tlm_command)
    (addr : Nat) : Option String :=
  match status with
  | tlm_response_status.TLM_OK_RESPONSE => none
  | tlm_response_status.TLM_INCOMPLETE_RESPONSE =>
    some ("TrafficGenerator:" ++ toString (command_value command) ++
      "incomplete at address 0x" ++ hex addr ++ "\n")
  | tlm_response_status.TLM_ADDRESS_ERROR_RESPONSE =>
    some ("TrafficGenerator: Address out of range at address 0x" ++ hex addr ++ "\n")
  | tlm_response_status.TLM_COMMAND_ERROR_RESPONSE =>
    some ("TrafficGenerator: Invalid command at address 0x" ++ hex addr ++ "\n")
  | tlm_response_status.TLM_GENERIC_ERROR_RESPONSE =>
    some ("TrafficGenerator: Generic error at address 0x" ++ hex addr ++ "\n")
  | tlm_response_status.TLM_BURST_ERROR_RESPONSE =>
    some ("TrafficGenerator: Burst error at address 0x" ++ hex addr ++ "\n")
  | tlm_response_status.TLM_BYTE_ENABLE_ERROR_RESPONSE => none

/-- One whole iteration of `generate_traffic` against a memory module: the module after
the call of `b_transport` and the diagnostic line, if any. -/
def TrafficGenerator.generate_traffic (m : MemoryModule) (rnd : Nat → Nat)
    (scratch : List Nat) : MemoryModule × Option String :=
  let built := TrafficGenerator.build_transaction rnd scratch
  let result := m.b_transport built.1 built.2
  (result.module,
    TrafficGenerator.diagnostic result.trans.response_status result.trans.command
      built.1.address)

/-- A memory module is as constructed when its store has the size and its latencies and
latency ceiling have the values that `SC_CTOR(MemoryModule)` gives them. No call of
`b_transport` changes any of them. -/
def as_constructed (m : MemoryModule) : Prop :=
  m.memory.get_size = 1024 * 1024 ∧
  m.memory.default_read_latency = sc_time 10 SC_NS ∧
  m.memory.default_write_latency = sc_time 20 SC_NS ∧
  m.max_allowed_latency = sc_time 100 SC_NS

instance (m : MemoryModule) : Decidable (as_constructed m) := by
  unfold as_constructed
  infer_instance

/-! ## Basic facts about the embedding -/

open tlm_command tlm_response_status

theorem in_range_passes_check (a l size : Nat) (h : a + l ≤ size) :
    ¬ ((a + l) % 2 ^ 64 > size) := by
  have := Nat.mod_le (a + l) (2 ^ 64)
  omega

theorem timeout_check_module (m : MemoryModule) (t : tlm_generic_payload) (d : Nat) :
    (timeout_check m t d).module = m := by
  unfold timeout_check
  split <;> rfl

theorem timeout_check_delay (m : MemoryModule) (t : tlm_generic_payload) (d : Nat) :
    (timeout_check m t d).delay = d := by
  unfold timeout_check
  split <;> rfl

theorem timeout_check_data (m : MemoryModule) (t : tlm_generic_payload) (d : Nat) :
    (timeout_check m t d).trans.data_ptr = t.data_ptr := by
  unfold timeout_check
  split <;> rfl

theorem timeout_check_ok (m : MemoryModule) (t : tlm_generic_payload) (d : Nat)
    (h : d ≤ m.max_allowed_latency) :
    (timeout_check m t d).trans.response_status = TLM_OK_RESPONSE := by
  unfold timeout_check
  rw [if_neg (by omega)]

theorem timeout_check_late (m : MemoryModule) (t : tlm_generic_payload) (d : Nat)
    (h : d > m.max_allowed_latency) :
    (timeout_check m t d).trans.response_status = TLM_GENERIC_ERROR_RESPONSE := by
  unfold timeout_check
  rw [if_pos h]

theorem timeout_check_status (m : MemoryModule) (t : tlm_generic_payload) (d : Nat) :
    (timeout_check m t d).trans.response_status = TLM_OK_RESPONSE ∨
      (timeout_check m t d).trans.response_status = TLM_GENERIC_ERROR_RESPONSE := by
  unfold timeout_check
  split
  · right; rfl
  · left; rfl

/-- The branch of the bounds check: the call returns at once. -/
theorem b_transport_out_of_range (m : MemoryModule) (t : tlm_generic_payload) (d : Nat)
    (h : (t.address + t.data_length) % 2 ^ 64 > m.memory.get_size) :
    m.b_transport t d =
      { module := m
        trans := { t with response_status := TLM_ADDRESS_ERROR_RESPONSE }
        delay := d } := by
  unfold MemoryModule.b_transport
  simp only [if_pos h]

/-- The write branch. -/
theorem b_transport_write (m : MemoryModule) (t : tlm_generic_payload) (d : Nat)
    (h : ¬ ((t.address + t.data_length) % 2 ^ 64 > m.memory.get_size))
    (hc : t.command = TLM_WRITE_COMMAND) :
    m.b_transport t d =
      timeout_check
        { m with
          memory := write_loop m.memory t.address t.data_ptr t.data_length
          total_bytes_transferred := (m.total_bytes_transferred + t.data_length) % 2 ^ 64 }
        t ((d + m.memory.default_write_latency) % 2 ^ 64) := by
  unfold MemoryModule.b_transport
  simp only [if_neg h, hc, if_true]

/-- The read branch. -/
theorem b_transport_read (m : MemoryModule) (t : tlm_generic_payload) (d : Nat)
    (h : ¬ ((t.address + t.data_length) % 2 ^ 64 > m.memory.get_size))
    (hc : t.command = TLM_READ_COMMAND) :
    m.b_transport t d =
      timeout_check
        { m with
          total_bytes_transferred := (m.total_bytes_transferred + t.data_length) % 2 ^ 64 }
        { t with data_ptr := read_loop m.memory t.address t.data_ptr t.data_length }
        ((d + m.memory.default_read_latency) % 2 ^ 64) := by
  unfold MemoryModule.b_transport
  simp only [if_neg h, hc, if_true]
  rfl

/-- The branch of any other command. -/
theorem b_transport_other (m : MemoryModule) (t : tlm_generic_payload) (d : Nat)
    (h : ¬ ((t.address + t.data_length) % 2 ^ 64 > m.memory.get_size))
    (hw : t.command ≠ TLM_WRITE_COMMAND) (hr : t.command ≠ TLM_READ_COMMAND) :
    m.b_transport t d =
      { module := m
        trans := { t with response_status := TLM_COMMAND_ERROR_RESPONSE }
        delay := d } := by
  unfold MemoryModule.b_transport
  simp only [if_neg h, if_neg hw, if_neg hr]

theorem foldl_set_length (ks : List Nat) (f g : Nat → Nat) (s : List Nat) :
    (ks.foldl (fun acc k => acc.set (f k) (g k)) s).length = s.length := by
  induction ks generalizing s with
  | nil => rfl
  | cons k ks ih => simp only [List.foldl_cons]; rw [ih]; exact List.length_set _ _ _

theorem write_get_size (mem : scml2_memory) (a : Nat) (data : List Nat) (size : Nat) :
    (mem.write a data size).get_size = mem.get_size := by
  unfold scml2_memory.write
  split
  · exact foldl_set_length _ (fun k => a + k) (fun k => data.getD k 0) _
  · rfl

theorem write_read_latency (mem : scml2_memory) (a : Nat) (data : List Nat) (size : Nat) :
    (mem.write a data size).default_read_latency = mem.default_read_latency := by
  unfold scml2_memory.write
  split <;> rfl

theorem write_write_latency (mem : scml2_memory) (a : Nat) (data : List Nat) (size : Nat) :
    (mem.write a data size).default_write_latency = mem.default_write_latency := by
  unfold scml2_memory.write
  split <;> rfl

theorem write_loop_succ (mem : scml2_memory) (addr : Nat) (data : List Nat) (n : Nat) :
    write_loop mem addr data (n + 1) =
      (write_loop mem addr data n).write ((addr + n) % 2 ^ 64) data 1 := by
  unfold write_loop
  rw [List.range_succ, List.foldl_append]
  rfl

theorem write_loop_get_size (mem : scml2_memory) (addr : Nat) (data : List Nat) (n : Nat) :
    (write_loop mem addr data n).get_size = mem.get_size := by
  induction n with
  | zero => rfl
  | succ n ih => rw [write_loop_succ, write_get_size, ih]

theorem write_loop_read_latency (mem : scml2_memory) (addr : Nat) (data : List Nat) (n : Nat) :
    (write_loop mem addr data n).default_read_latency = mem.default_read_latency := by
  induction n with
  | zero => rfl
  | succ n ih => rw [write_loop_succ, write_read_latency, ih]

theorem write_loop_write_latency (mem : scml2_memory) (addr : Nat) (data : List Nat) (n : Nat) :
    (write_loop mem addr data n).default_write_latency = mem.default_write_latency := by
  induction n with
  | zero => rfl
  | succ n ih => rw [write_loop_succ, write_write_latency, ih]

/-- Every call leaves behind either the counter it found or that counter advanced by the
transaction length, in 64-bit arithmetic. -/
theorem b_transport_counter_cases (m : MemoryModule) (t : tlm_generic_payload) (d : Nat) :
    (m.b_transport t d).module.total_bytes_transferred = m.total_bytes_transferred ∨
      (m.b_transport t d).module.total_bytes_transferred =
        (m.total_bytes_transferred + t.data_length) % 2 ^ 64 := by
  by_cases h : (t.address + t.data_length) % 2 ^ 64 > m.memory.get_size
  · left; rw [b_transport_out_of_range m t d h]
  · by_cases hw : t.command = TLM_WRITE_COMMAND
    · right; rw [b_transport_write m t d h hw, timeout_check_module]
    · by_cases hr : t.command = TLM_READ_COMMAND
      · right; rw [b_transport_read m t d h hr, timeout_check_module]
      · left; rw [b_transport_other m t d h hw hr]

/-- An in-range Read or Write advances the counter by the transaction length, in 64-bit
arithmetic. -/
theorem b_transport_counter_in_range (m : MemoryModule) (t : tlm_generic_payload) (d : Nat)
    (hc : t.command = TLM_READ_COMMAND ∨ t.command = TLM_WRITE_COMMAND)
    (h : t.address + t.data_length ≤ m.memory.get_size) :
    (m.b_transport t d).module.total_bytes_transferred =
      (m.total_bytes_transferred + t.data_length) % 2 ^ 64 := by
  have hk := in_range_passes_check _ _ _ h
  rcases hc with hr | hw
  · rw [b_transport_read m t d hk hr, timeout_check_module]
  · rw [b_transport_write m t d hk hw, timeout_check_module]

/-- No call changes the size of the store. -/
theorem b_transport_get_size (m : MemoryModule) (t : tlm_generic_payload) (d : Nat) :
    (m.b_transport t d).module.memory.get_size = m.memory.get_size := by
  by_cases h : (t.address + t.data_length) % 2 ^ 64 > m.memory.get_size
  · rw [b_transport_out_of_range m t d h]
  · by_cases hw : t.command = TLM_WRITE_COMMAND
    · rw [b_transport_write m t d h hw, timeout_check_module]
      exact write_loop_get_size _ _ _ _
    · by_cases hr : t.command = TLM_READ_COMMAND
      · rw [b_transport_read m t d h hr, timeout_check_module]
      · rw [b_transport_other m t d h hw hr]

/-- No call changes the latencies or the latency ceiling set at construction. -/
theorem b_transport_constants (m : MemoryModule) (t : tlm_generic_payload) (d : Nat) :
    (m.b_transport t d).module.memory.default_read_latency = m.memory.default_read_latency ∧
    (m.b_transport t d).module.memory.default_write_latency = m.memory.default_write_latency ∧
    (m.b_transport t d).module.max_allowed_latency = m.max_allowed_latency := by
  by_cases h : (t.address + t.data_length) % 2 ^ 64 > m.memory.get_size
  · rw [b_transport_out_of_range m t d h]
    exact ⟨rfl, rfl, rfl⟩
  · by_cases hw : t.command = TLM_WRITE_COMMAND
    · rw [b_transport_write m t d h hw, timeout_check_module]
      exact ⟨write_loop_read_latency _ _ _ _, write_loop_write_latency _ _ _ _, rfl⟩
    · by_cases hr : t.command = TLM_READ_COMMAND
      · rw [b_transport_read m t d h hr, timeout_check_module]
        exact ⟨rfl, rfl, rfl⟩
      · rw [b_transport_other m t d h hw hr]
        exact ⟨rfl, rfl, rfl⟩

/-- The constructor sets the read latency to 10 ns, the write latency to 20 ns and the
latency ceiling to 100 ns, in picoseconds. -/
theorem SC_CTOR_constants :
    MemoryModule.SC_CTOR.memory.default_read_latency = 10000 ∧
    MemoryModule.SC_CTOR.memory.default_write_latency = 20000 ∧
    MemoryModule.SC_CTOR.max_allowed_latency = 100000 ∧
    MemoryModule.SC_CTOR.memory.get_size = 1048576 := by
  refine ⟨rfl, rfl, rfl, ?_⟩
  show (List.replicate (1024 * 1024) 0).length = 1048576
  rw [List.length_replicate]

/-- Away from the bounds check the address error status is never the result. -/
theorem b_transport_address_error_iff (m : MemoryModule) (t : tlm_generic_payload) (d : Nat) :
    (m.b_transport t d).trans.response_status = TLM_ADDRESS_ERROR_RESPONSE ↔
      (t.address + t.data_length) % 2 ^ 64 > m.memory.get_size := by
  constructor
  · intro hs
    by_contra h
    by_cases hw : t.command = TLM_WRITE_COMMAND
    · rw [b_transport_write m t d h hw] at hs
      rcases timeout_check_status _ t ((d + m.memory.default_write_latency) % 2 ^ 64) with h1 | h1 <;>
        rw [h1] at hs <;> cases hs
    · by_cases hr : t.command = TLM_READ_COMMAND
      · rw [b_transport_read m t d h hr] at hs
        rcases timeout_check_status _
          { t with data_ptr := read_loop m.memory t.address t.data_ptr t.data_length }
          ((d + m.memory.default_read_latency) % 2 ^ 64) with h1 | h1 <;>
          rw [h1] at hs <;> cases hs
      · rw [b_transport_other m t d h hw hr] at hs
        cases hs
  · intro h
    rw [b_transport_out_of_range m t d h]

/-- When the 64-bit sum `address + length` does not wrap, the bounds check rejects every
transaction that reaches past the store: the status is the address error, and the module
(store and counter) and the delay are as before. -/
theorem b_transport_bounds_no_wrap (m : MemoryModule) (t : tlm_generic_payload) (d : Nat)
    (hno : t.address + t.data_length < 2 ^ 64)
    (h : t.address + t.data_length > m.memory.get_size) :
    (m.b_transport t d).trans.response_status = TLM_ADDRESS_ERROR_RESPONSE ∧
    (m.b_transport t d).module = m ∧ (m.b_transport t d).delay = d := by
  have hk : (t.address + t.data_length) % 2 ^ 64 > m.memory.get_size := by
    rw [Nat.mod_eq_of_lt hno]; exact h
  rw [b_transport_out_of_range m t d hk]
  exact ⟨rfl, rfl, rfl⟩

/-! ## The bounds check (C1) -/

/-- C1, evaluated where the code leaves the claim: on the module as constructed (a store of
1048576 bytes) a transaction at address `2 ^ 64 - 1` of length 1 reaches past the store,
yet its 64-bit sum `address + length` wraps to 0, the bounds check lets it through, and
with a command that is neither Read nor Write the status is the command error, not the
address error. -/
theorem bounds_check_wraps_around :
    (mk_trans TLM_IGNORE_COMMAND (2 ^ 64 - 1) [0] 1).address +
        (mk_trans TLM_IGNORE_COMMAND (2 ^ 64 - 1) [0] 1).data_length >
      MemoryModule.SC_CTOR.memory.get_size ∧
    (MemoryModule.SC_CTOR.b_transport
        (mk_trans TLM_IGNORE_COMMAND (2 ^ 64 - 1) [0] 1) 0).trans.response_status =
      TLM_COMMAND_ERROR_RESPONSE := by
  constructor
  · rw [SC_CTOR_constants.2.2.2]
    decide
  · have h0 : ((mk_trans TLM_IGNORE_COMMAND (2 ^ 64 - 1) [0] 1).address +
        (mk_trans TLM_IGNORE_COMMAND (2 ^ 64 - 1) [0] 1).data_length) % 2 ^ 64 = 0 := by
      decide
    rw [b_transport_other _ _ _ (by rw [h0]; exact Nat.not_lt_zero _) (by decide) (by decide)]

/-! ## Data movement (C2, C3, C4) -/

/-- C2, evaluated where the code leaves the claim: on a store of two zero bytes, a Write of
the bytes `[1, 2]` at address 0 followed directly by a Read of 2 bytes at address 0 into
the buffer `[9, 9]` leaves the read buffer `[1, 9]`, not `[1, 2]`: both loops use the data
pointer without advancing it. -/
theorem write_then_read_returns_other_bytes :
    (((module_with [0, 0] 0).b_transport
        (mk_trans TLM_WRITE_COMMAND 0 [1, 2] 2) 0).module.b_transport
        (mk_trans TLM_READ_COMMAND 0 [9, 9] 2) 0).trans.data_ptr = [1, 9] := by
  decide

/-- C3, evaluated where the code leaves the claim: on a store of two zero bytes, a Write of
the bytes `[1, 2]` at address 0 leaves the store `[1, 1]`: the byte at address 1 is the
first byte of the buffer, not the second. -/
theorem write_stores_first_byte_everywhere :
    ((module_with [0, 0] 0).b_transport
        (mk_trans TLM_WRITE_COMMAND 0 [1, 2] 2) 0).module.memory.storage = [1, 1] := by
  decide

/-- C4, evaluated where the code leaves the claim: on the store `[5, 6]`, a Read of 2 bytes
at address 0 into the buffer `[0, 0]` leaves the buffer `[6, 0]`, not `[5, 6]`: every
iteration stores into the first byte of the buffer. -/
theorem read_fills_first_byte_only :
    ((module_with [5, 6] 0).b_transport
        (mk_trans TLM_READ_COMMAND 0 [0, 0] 2) 0).trans.data_ptr = [6, 0] := by
  decide

/-! ## The timeout boundary (C5) -/

/-- C5 as stated fails: the delay is a 64-bit count of picoseconds. An in-range Read
arriving with `2 ^ 64 - 1` ps has incoming delay plus read latency above the ceiling of
100 ns, yet the 64-bit sum wraps to 9999 ps and the status is OK. -/
theorem timeout_sum_wraps_at_uint64 :
    (mk_trans TLM_READ_COMMAND 0 [0] 1).address + (mk_trans TLM_READ_COMMAND 0 [0] 1).data_length
      ≤ (module_with [0] 0).memory.get_size ∧
    2 ^ 64 - 1 + (module_with [0] 0).memory.default_read_latency >
      (module_with [0] 0).max_allowed_latency ∧
    ((module_with [0] 0).b_transport (mk_trans TLM_READ_COMMAND 0 [0] 1)
      (2 ^ 64 - 1)).trans.response_status = TLM_OK_RESPONSE ∧
    ((module_with [0] 0).b_transport (mk_trans TLM_READ_COMMAND 0 [0] 1)
      (2 ^ 64 - 1)).trans.response_status ≠ TLM_GENERIC_ERROR_RESPONSE := by
  decide

/-- C5, amended: on a module with the read latency 10 ns and the write latency 20 ns, an
in-range Read or Write ends with status OK when the incoming delay plus the latency of
its command, reduced modulo `2 ^ 64` picoseconds, is at most `max_allowed_latency`
(equality included), and with the generic error when it is greater; hence, whenever the
incoming delay plus the latency is below `2 ^ 64` picoseconds, with OK when that sum is at
most `max_allowed_latency` and with the generic error when it is greater. -/
theorem b_transport_timeout_boundary (m : MemoryModule) (t : tlm_generic_payload) (d : Nat)
    (hr : m.memory.default_read_latency = sc_time 10 SC_NS)
    (hw : m.memory.default_write_latency = sc_time 20 SC_NS)
    (hc : t.command = TLM_READ_COMMAND ∨ t.command = TLM_WRITE_COMMAND)
    (h : t.address + t.data_length ≤ m.memory.get_size) :
    ((d + (if t.command = TLM_READ_COMMAND then sc_time 10 SC_NS else sc_time 20 SC_NS))
        % 2 ^ 64 ≤ m.max_allowed_latency →
      (m.b_transport t d).trans.response_status = TLM_OK_RESPONSE) ∧
    ((d + (if t.command = TLM_READ_COMMAND then sc_time 10 SC_NS else sc_time 20 SC_NS))
        % 2 ^ 64 > m.max_allowed_latency →
      (m.b_transport t d).trans.response_status = TLM_GENERIC_ERROR_RESPONSE) ∧
    (d + (if t.command = TLM_READ_COMMAND then sc_time 10 SC_NS else sc_time 20 SC_NS)
        < 2 ^ 64 →
      (d + (if t.command = TLM_READ_COMMAND then sc_time 10 SC_NS else sc_time 20 SC_NS)
          ≤ m.max_allowed_latency →
        (m.b_transport t d).trans.response_status = TLM_OK_RESPONSE) ∧
      (d + (if t.command = TLM_READ_COMMAND then sc_time 10 SC_NS else sc_time 20 SC_NS)
          > m.max_allowed_latency →
        (m.b_transport t d).trans.response_status = TLM_GENERIC_ERROR_RESPONSE)) := by
  have hk := in_range_passes_check _ _ _ h
  have key : ((d + (if t.command = TLM_READ_COMMAND then sc_time 10 SC_NS
        else sc_time 20 SC_NS)) % 2 ^ 64 ≤ m.max_allowed_latency →
      (m.b_transport t d).trans.response_status = TLM_OK_RESPONSE) ∧
    ((d + (if t.command = TLM_READ_COMMAND then sc_time 10 SC_NS else sc_time 20 SC_NS))
        % 2 ^ 64 > m.max_allowed_latency →
      (m.b_transport t d).trans.response_status = TLM_GENERIC_ERROR_RESPONSE) := by
    rcases hc with hc | hc
    · rw [b_transport_read m t d hk hc, hr, if_pos hc]
      exact ⟨fun hle => timeout_check_ok _ _ _ hle, fun hgt => timeout_check_late _ _ _ hgt⟩
    · have hne : ¬ t.command = TLM_READ_COMMAND := by rw [hc]; decide
      rw [b_transport_write m t d hk hc, hw, if_neg hne]
      exact ⟨fun hle => timeout_check_ok _ _ _ hle, fun hgt => timeout_check_late _ _ _ hgt⟩
  refine ⟨key.1, key.2, ?_⟩
  intro hfit
  rw [Nat.mod_eq_of_lt hfit] at key
  exact key

/-- A Read arriving with 90 ns meets the ceiling of 100 ns exactly and is accepted. -/
theorem b_transport_timeout_boundary_witness :
    (module_with [0, 0] 0).memory.default_read_latency = sc_time 10 SC_NS ∧
    (module_with [0, 0] 0).memory.default_write_latency = sc_time 20 SC_NS ∧
    (mk_trans TLM_READ_COMMAND 0 [0] 2).address + (mk_trans TLM_READ_COMMAND 0 [0] 2).data_length
      ≤ (module_with [0, 0] 0).memory.get_size ∧
    ((module_with [0, 0] 0).b_transport (mk_trans TLM_READ_COMMAND 0 [0] 2)
      (sc_time 90 SC_NS)).trans.response_status = TLM_OK_RESPONSE :=
  ⟨rfl, rfl, by decide,
    ((b_transport_timeout_boundary (module_with [0, 0] 0) (mk_trans TLM_READ_COMMAND 0 [0] 2)
      (sc_time 90 SC_NS) rfl rfl (Or.inl rfl) (by decide)).2.2 (by decide)).1 (by decide)⟩

/-! ## Command validation (C6) -/

/-- The counter after a sequence of in-range Reads and Writes, in 64-bit arithmetic. -/
theorem run_transactions_counter_mod (calls : List (tlm_generic_payload × Nat)) :
    ∀ m : MemoryModule, m.total_bytes_transferred < 2 ^ 64 →
      (∀ c ∈ calls, (c.1.command = TLM_READ_COMMAND ∨ c.1.command = TLM_WRITE_COMMAND) ∧
        c.1.address + c.1.data_length ≤ m.memory.get_size) →
      (run_transactions m calls).total_bytes_transferred =
        (m.total_bytes_transferred + (calls.map (fun c => c.1.data_length)).sum) % 2 ^ 64 := by
  induction calls with
  | nil =>
    intro m hm _
    simp only [run_transactions, List.map_nil, List.sum_nil, Nat.add_zero]
    exact (Nat.mod_eq_of_lt hm).symm
  | cons c rest ih =>
    intro m _ hcalls
    obtain ⟨t, d⟩ := c
    have hc := hcalls (t, d) (List.mem_cons_self _ _)
    have hstep := b_transport_counter_in_range m t d hc.1 hc.2
    have hlt : (m.b_transport t d).module.total_bytes_transferred < 2 ^ 64 := by
      rw [hstep]; exact Nat.mod_lt _ (by decide)
    have hrest : ∀ c ∈ rest,
        (c.1.command = TLM_READ_COMMAND ∨ c.1.command = TLM_WRITE_COMMAND) ∧
          c.1.address + c.1.data_length ≤ (m.b_transport t d).module.memory.get_size := by
      intro c hmem
      rw [b_transport_get_size]
      exact hcalls c (List.mem_cons_of_mem _ hmem)
    simp only [run_transactions, List.map_cons, List.sum_cons]
    rw [ih _ hlt hrest, hstep, Nat.mod_add_mod, Nat.add_assoc]

/-- C7 as stated fails: the counter is a 64-bit unsigned integer. From the counter
`2 ^ 64 - 1` an in-range Read of 1 byte, which ends with status OK, leaves the counter 0:
not the value before plus 1, and smaller than before. -/
theorem counter_wraps_at_uint64 :
    (mk_trans TLM_READ_COMMAND 0 [0] 1).address + (mk_trans TLM_READ_COMMAND 0 [0] 1).data_length
      ≤ (module_with [0] (2 ^ 64 - 1)).memory.get_size ∧
    ((module_with [0] (2 ^ 64 - 1)).b_transport
      (mk_trans TLM_READ_COMMAND 0 [0] 1) 0).trans.response_status = TLM_OK_RESPONSE ∧
    (run_transactions (module_with [0] (2 ^ 64 - 1))
      [(mk_trans TLM_READ_COMMAND 0 [0] 1, 0)]).total_bytes_transferred ≠
      (module_with [0] (2 ^ 64 - 1)).total_bytes_transferred + 1 ∧
    ((module_with [0] (2 ^ 64 - 1)).b_transport
      (mk_trans TLM_READ_COMMAND 0 [0] 1) 0).module.total_bytes_transferred <
      (module_with [0] (2 ^ 64 - 1)).total_bytes_transferred := by
  decide

/-- C7, amended: from a counter below `2 ^ 64`, after a sequence of in-range Read/Write
calls with lengths L1..LN the counter equals the value before plus L1 + ... + LN reduced
modulo `2 ^ 64`, hence exactly the value before plus the sum whenever that is below
`2 ^ 64`; and after a single call, whatever its outcome, the counter is not smaller than
before provided the value before plus the length of the call is below `2 ^ 64`. -/
theorem counter_accounting (m : MemoryModule) (calls : List (tlm_generic_payload × Nat))
    (hm : m.total_bytes_transferred < 2 ^ 64)
    (hcalls : ∀ c ∈ calls,
      (c.1.command = TLM_READ_COMMAND ∨ c.1.command = TLM_WRITE_COMMAND) ∧
        c.1.address + c.1.data_length ≤ m.memory.get_size) :
    (run_transactions m calls).total_bytes_transferred =
      (m.total_bytes_transferred + (calls.map (fun c => c.1.data_length)).sum) % 2 ^ 64 ∧
    (m.total_bytes_transferred + (calls.map (fun c => c.1.data_length)).sum < 2 ^ 64 →
      (run_transactions m calls).total_bytes_transferred =
        m.total_bytes_transferred + (calls.map (fun c => c.1.data_length)).sum) ∧
    (∀ (t : tlm_generic_payload) (d : Nat),
      m.total_bytes_transferred + t.data_length < 2 ^ 64 →
        m.total_bytes_transferred ≤ (m.b_transport t d).module.total_bytes_transferred) := by
  have h1 := run_transactions_counter_mod calls m hm hcalls
  refine ⟨h1, ?_, ?_⟩
  · intro hlt
    rw [h1, Nat.mod_eq_of_lt hlt]
  · intro t d hlt
    rcases b_transport_counter_cases m t d with h | h
    · rw [h]
    · rw [h, Nat.mod_eq_of_lt hlt]
      exact Nat.le_add_right _ _

/-- A Write of 8 bytes that is accepted and a Read of 4 bytes that times out, from the
counter 5, leave the counter 17. -/
theorem counter_accounting_witness :
    (module_with [0, 0, 0, 0, 0, 0, 0, 0] 5).total_bytes_transferred < 2 ^ 64 ∧
    (run_transactions (module_with [0, 0, 0, 0, 0, 0, 0, 0] 5)
      [(mk_trans TLM_WRITE_COMMAND 0 [1, 2, 3, 4, 5, 6, 7, 8] 8, sc_time 50 SC_NS),
       (mk_trans TLM_READ_COMMAND 2 [0, 0, 0, 0] 4, sc_time 95 SC_NS)]).total_bytes_transferred
      = 17 :=
  ⟨by decide,
    (counter_accounting (module_with [0, 0, 0, 0, 0, 0, 0, 0] 5)
      [(mk_trans TLM_WRITE_COMMAND 0 [1, 2, 3, 4, 5, 6, 7, 8] 8, sc_time 50 SC_NS),
       (mk_trans TLM_READ_COMMAND 2 [0, 0, 0, 0] 4, sc_time 95 SC_NS)]
      (by decide) (by decide)).2.1 (by decide)⟩

/-- C8 as stated fails: an in-range Write of 1 byte arriving with 100 ns ends with the
generic error (120 ns exceed the ceiling of 100 ns), yet the counter went from 0 to 1. -/
theorem counter_changes_on_timeout :
    ((module_with [0] 0).b_transport
      (mk_trans TLM_WRITE_COMMAND 0 [5] 1) (sc_time 100 SC_NS)).trans.response_status =
      TLM_GENERIC_ERROR_RESPONSE ∧
    ((module_with [0] 0).b_transport
      (mk_trans TLM_WRITE_COMMAND 0 [5] 1) (sc_time 100 SC_NS)).module.total_bytes_transferred ≠
      (module_with [0] 0).total_bytes_transferred := by
  decide

/-- C8, amended: if `total_bytes_transferred` after a call differs from its value before
the call, then the response status of that call is OK or the generic error (timeout). -/
theorem counter_change_implies_ok_or_timeout (m : MemoryModule) (t : tlm_generic_payload)
    (d : Nat)
    (h : (m.b_transport t d).module.total_bytes_transferred ≠ m.total_bytes_transferred) :
    (m.b_transport t d).trans.response_status = TLM_OK_RESPONSE ∨
    (m.b_transport t d).trans.response_status = TLM_GENERIC_ERROR_RESPONSE := by
  by_cases hk : (t.address + t.data_length) % 2 ^ 64 > m.memory.get_size
  · rw [b_transport_out_of_range m t d hk] at h
    exact absurd rfl h
  · by_cases hw : t.command = TLM_WRITE_COMMAND
    · rw [b_transport_write m t d hk hw]
      exact timeout_check_status _ _ _
    · by_cases hr : t.command = TLM_READ_COMMAND
      · rw [b_transport_read m t d hk hr]
        exact timeout_check_status _ _ _
      · rw [b_transport_other m t d hk hw hr] at h
        exact absurd rfl h

/-- A Read of 2 bytes within budget changes the counter from 3 to 5 and ends with OK. -/
theorem counter_change_implies_ok_or_timeout_witness :
    ((module_with [0, 0] 3).b_transport
      (mk_trans TLM_READ_COMMAND 0 [0, 0] 2) 0).module.total_bytes_transferred ≠
      (module_with [0, 0] 3).total_bytes_transferred ∧
    (((module_with [0, 0] 3).b_transport
      (mk_trans TLM_READ_COMMAND 0 [0, 0] 2) 0).trans.response_status = TLM_OK_RESPONSE ∨
    ((module_with [0, 0] 3).b_transport
      (mk_trans TLM_READ_COMMAND 0 [0, 0] 2) 0).trans.response_status =
        TLM_GENERIC_ERROR_RESPONSE) :=
  ⟨by decide,
    counter_change_implies_ok_or_timeout (module_with [0, 0] 3)
      (mk_trans TLM_READ_COMMAND 0 [0, 0] 2) 0 (by decide)⟩

/-! ## No rollback on timeout (C9) -/

/-- C9 as stated fails: the delay is a 64-bit count of picoseconds. An in-range Write
arriving with `2 ^ 64 - 1` ps has incoming delay plus write latency above the ceiling of
100 ns, yet the 64-bit sum wraps to 19999 ps and the status is OK, not the generic
error. -/
theorem late_write_wraps_to_ok :
    (mk_trans TLM_WRITE_COMMAND 0 [5] 1).address + (mk_trans TLM_WRITE_COMMAND 0 [5] 1).data_length
      ≤ (module_with [0] 0).memory.get_size ∧
    2 ^ 64 - 1 + (module_with [0] 0).memory.default_write_latency >
      (module_with [0] 0).max_allowed_latency ∧
    ((module_with [0] 0).b_transport (mk_trans TLM_WRITE_COMMAND 0 [5] 1)
      (2 ^ 64 - 1)).trans.response_status = TLM_OK_RESPONSE ∧
    ((module_with [0] 0).b_transport (mk_trans TLM_WRITE_COMMAND 0 [5] 1)
      (2 ^ 64 - 1)).trans.response_status ≠ TLM_GENERIC_ERROR_RESPONSE := by
  decide

/-- C9, amended: an in-range Write whose incoming delay plus the write latency is below
`2 ^ 64` picoseconds and exceeds `max_allowed_latency` ends with the generic error, and
the store contents and `total_bytes_transferred` it leaves are exactly those left by the
same Write issued from the same state with an incoming delay within budget, which ends
with OK. -/
theorem b_transport_no_rollback_on_timeout (m : MemoryModule) (t : tlm_generic_payload)
    (d_late d_ok : Nat)
    (hc : t.command = TLM_WRITE_COMMAND)
    (h : t.address + t.data_length ≤ m.memory.get_size)
    (hfit : d_late + m.memory.default_write_latency < 2 ^ 64)
    (hlate : d_late + m.memory.default_write_latency > m.max_allowed_latency)
    (hok : d_ok + m.memory.default_write_latency ≤ m.max_allowed_latency) :
    (m.b_transport t d_late).trans.response_status = TLM_GENERIC_ERROR_RESPONSE ∧
    (m.b_transport t d_ok).trans.response_status = TLM_OK_RESPONSE ∧
    (m.b_transport t d_late).module.memory.storage =
      (m.b_transport t d_ok).module.memory.storage ∧
    (m.b_transport t d_late).module.total_bytes_transferred =
      (m.b_transport t d_ok).module.total_bytes_transferred := by
  have hk := in_range_passes_check _ _ _ h
  have hlate64 : (d_late + m.memory.default_write_latency) % 2 ^ 64 >
      m.max_allowed_latency := by
    rw [Nat.mod_eq_of_lt hfit]; exact hlate
  have hok64 : (d_ok + m.memory.default_write_latency) % 2 ^ 64 ≤
      m.max_allowed_latency :=
    Nat.le_trans (Nat.mod_le _ _) hok
  rw [b_transport_write m t d_late hk hc, b_transport_write m t d_ok hk hc]
  refine ⟨timeout_check_late _ _ _ hlate64, timeout_check_ok _ _ _ hok64, ?_, ?_⟩
  · rw [timeout_check_module, timeout_check_module]
  · rw [timeout_check_module, timeout_check_module]

/-- A Write of 2 bytes arriving with 90 ns times out and still leaves the store `[7, 7]`
and the counter 2. -/
theorem b_transport_no_rollback_on_timeout_witness :
    (mk_trans TLM_WRITE_COMMAND 1 [7, 8] 2).command = TLM_WRITE_COMMAND ∧
    (mk_trans TLM_WRITE_COMMAND 1 [7, 8] 2).address + (mk_trans TLM_WRITE_COMMAND 1 [7, 8] 2).data_length
      ≤ (module_with [0, 0, 0] 0).memory.get_size ∧
    sc_time 90 SC_NS + (module_with [0, 0, 0] 0).memory.default_write_latency < 2 ^ 64 ∧
    sc_time 90 SC_NS + (module_with [0, 0, 0] 0).memory.default_write_latency
      > (module_with [0, 0, 0] 0).max_allowed_latency ∧
    sc_time 80 SC_NS + (module_with [0, 0, 0] 0).memory.default_write_latency
      ≤ (module_with [0, 0, 0] 0).max_allowed_latency ∧
    ((module_with [0, 0, 0] 0).b_transport (mk_trans TLM_WRITE_COMMAND 1 [7, 8] 2)
      (sc_time 90 SC_NS)).module.memory.storage = [0, 7, 7] ∧
    ((module_with [0, 0, 0] 0).b_transport (mk_trans TLM_WRITE_COMMAND 1 [7, 8] 2)
      (sc_time 90 SC_NS)).trans.response_status = TLM_GENERIC_ERROR_RESPONSE :=
  ⟨rfl, by decide, by decide, by decide, by decide, by decide,
    (b_transport_no_rollback_on_timeout (module_with [0, 0, 0] 0)
      (mk_trans TLM_WRITE_COMMAND 1 [7, 8] 2) (sc_time 90 SC_NS) (sc_time 80 SC_NS)
      rfl (by decide) (by decide) (by decide) (by decide)).1⟩

/-! ## Latency accrual (C10) -/

/-- C10 as stated fails: the delay is a 64-bit count of picoseconds. An in-range Write
arriving with `2 ^ 64 - 1` ps leaves with the wrapped sum of 19999 ps, not with the
incoming delay plus 20 ns. -/
theorem outgoing_delay_wraps_at_uint64 :
    (mk_trans TLM_WRITE_COMMAND 0 [1] 1).address + (mk_trans TLM_WRITE_COMMAND 0 [1] 1).data_length
      ≤ (module_with [0] 0).memory.get_size ∧
    ((module_with [0] 0).b_transport (mk_trans TLM_WRITE_COMMAND 0 [1] 1)
      (2 ^ 64 - 1)).delay = 19999 ∧
    ((module_with [0] 0).b_transport (mk_trans TLM_WRITE_COMMAND 0 [1] 1)
      (2 ^ 64 - 1)).delay ≠ 2 ^ 64 - 1 + sc_time 20 SC_NS := by
  decide

/-- C10, amended: on a module with the read latency 10 ns and the write latency 20 ns,
the outgoing delay of a call is the incoming delay plus 20 ns reduced modulo `2 ^ 64`
picoseconds for an in-range Write, and the incoming delay plus 10 ns reduced modulo
`2 ^ 64` picoseconds for an in-range Read, whatever the status; hence exactly the
incoming delay plus 20 ns, or plus 10 ns, whenever that sum is below `2 ^ 64`
picoseconds; and it is the incoming delay unchanged when the status is the address error
or the command error. -/
theorem b_transport_latency_accrual (m : MemoryModule) (t : tlm_generic_payload) (d : Nat)
    (hr : m.memory.default_read_latency = sc_time 10 SC_NS)
    (hw : m.memory.default_write_latency = sc_time 20 SC_NS) :
    (t.address + t.data_length ≤ m.memory.get_size → t.command = TLM_WRITE_COMMAND →
      (m.b_transport t d).delay = (d + sc_time 20 SC_NS) % 2 ^ 64 ∧
      (d + sc_time 20 SC_NS < 2 ^ 64 → (m.b_transport t d).delay = d + sc_time 20 SC_NS)) ∧
    (t.address + t.data_length ≤ m.memory.get_size → t.command = TLM_READ_COMMAND →
      (m.b_transport t d).delay = (d + sc_time 10 SC_NS) % 2 ^ 64 ∧
      (d + sc_time 10 SC_NS < 2 ^ 64 → (m.b_transport t d).delay = d + sc_time 10 SC_NS)) ∧
    ((m.b_transport t d).trans.response_status = TLM_ADDRESS_ERROR_RESPONSE ∨
      (m.b_transport t d).trans.response_status = TLM_COMMAND_ERROR_RESPONSE →
      (m.b_transport t d).delay = d) := by
  refine ⟨?_, ?_, ?_⟩
  · intro h hc
    rw [b_transport_write m t d (in_range_passes_check _ _ _ h) hc, timeout_check_delay, hw]
    exact ⟨rfl, fun hfit => Nat.mod_eq_of_lt hfit⟩
  · intro h hc
    rw [b_transport_read m t d (in_range_passes_check _ _ _ h) hc, timeout_check_delay, hr]
    exact ⟨rfl, fun hfit => Nat.mod_eq_of_lt hfit⟩
  · intro hs
    by_cases hk : (t.address + t.data_length) % 2 ^ 64 > m.memory.get_size
    · rw [b_transport_out_of_range m t d hk]
    · by_cases hcw : t.command = TLM_WRITE_COMMAND
      · exfalso
        rw [b_transport_write m t d hk hcw] at hs
        rcases timeout_check_status
          { m with
            memory := write_loop m.memory t.address t.data_ptr t.data_length
            total_bytes_transferred := (m.total_bytes_transferred + t.data_length) % 2 ^ 64 }
          t ((d + m.memory.default_write_latency) % 2 ^ 64) with h1 | h1 <;>
          rw [h1] at hs <;> rcases hs with hs | hs <;> cases hs
      · by_cases hcr : t.command = TLM_READ_COMMAND
        · exfalso
          rw [b_transport_read m t d hk hcr] at hs
          rcases timeout_check_status
            { m with
              total_bytes_transferred := (m.total_bytes_transferred + t.data_length) % 2 ^ 64 }
            { t with data_ptr := read_loop m.memory t.address t.data_ptr t.data_length }
            ((d + m.memory.default_read_latency) % 2 ^ 64) with h1 | h1 <;>
            rw [h1] at hs <;> rcases hs with hs | hs <;> cases hs
        · rw [b_transport_other m t d hk hcw hcr]

/-- A Write of 1 byte arriving with 50 ns leaves with 70 ns. -/
theorem b_transport_latency_accrual_witness :
    (module_with [0] 0).memory.default_read_latency = sc_time 10 SC_NS ∧
    (module_with [0] 0).memory.default_write_latency = sc_time 20 SC_NS ∧
    ((module_with [0] 0).b_transport (mk_trans TLM_WRITE_COMMAND 0 [1] 1)
      (sc_time 50 SC_NS)).delay = sc_time 70 SC_NS :=
  ⟨rfl, rfl,
    ((b_transport_latency_accrual (module_with [0] 0) (mk_trans TLM_WRITE_COMMAND 0 [1] 1)
      (sc_time 50 SC_NS) rfl rfl).1 (by decide) rfl).2 (by decide)⟩

/-! ## What the write loop leaves in the store -/

theorem write_one_in_range (mem : scml2_memory) (a : Nat) (data : List Nat)
    (h : a + 1 ≤ mem.get_size) :
    (mem.write a data 1).storage = mem.storage.set a (data.getD 0 0) := by
  unfold scml2_memory.write
  rw [if_pos h]
  rfl

theorem write_one_outside (mem : scml2_memory) (a : Nat) (data : List Nat)
    (h : ¬ a + 1 ≤ mem.get_size) :
    mem.write a data 1 = mem := by
  unfold scml2_memory.write
  rw [if_neg h]

/-- A store byte that no iteration of the write loop addresses keeps its value. -/
theorem write_loop_frame (mem : scml2_memory) (addr : Nat) (data : List Nat) (j : Nat) :
    ∀ n : Nat, (∀ i, i < n → (addr + i) % 2 ^ 64 ≠ j) →
      (write_loop mem addr data n).storage[j]? = mem.storage[j]? := by
  intro n
  induction n with
  | zero => intro _; rfl
  | succ n ih =>
    intro hne
    have hprev := ih (fun i hi => hne i (Nat.lt_succ_of_lt hi))
    rw [write_loop_succ]
    by_cases hin : (addr + n) % 2 ^ 64 + 1 ≤ (write_loop mem addr data n).get_size
    · rw [write_one_in_range _ _ _ hin, List.getElem?_set_ne (hne n (Nat.lt_succ_self n))]
      exact hprev
    · rw [write_one_outside _ _ _ hin]
      exact hprev

/-- A store byte that some iteration of the write loop addresses ends as the first byte
of the data buffer. -/
theorem write_loop_hit (mem : scml2_memory) (addr : Nat) (data : List Nat) (j : Nat)
    (hj : j < mem.get_size) :
    ∀ n : Nat, (∃ i, i < n ∧ (addr + i) % 2 ^ 64 = j) →
      (write_loop mem addr data n).storage[j]? = some (data.getD 0 0) := by
  intro n
  induction n with
  | zero => intro ⟨i, hi, _⟩; exact absurd hi (Nat.not_lt_zero i)
  | succ n ih =>
    intro ⟨i, hi, hij⟩
    have hsz : (write_loop mem addr data n).get_size = mem.get_size :=
      write_loop_get_size mem addr data n
    rw [write_loop_succ]
    by_cases hlast : (addr + n) % 2 ^ 64 = j
    · have hin : (addr + n) % 2 ^ 64 + 1 ≤ (write_loop mem addr data n).get_size := by
        rw [hsz, hlast]; exact hj
      have hlen : j < (write_loop mem addr data n).storage.length := by
        have := hsz
        unfold scml2_memory.get_size at this hj
        rw [this]; exact hj
      rw [write_one_in_range _ _ _ hin, hlast, List.getElem?_set_self hlen]
    · have hi2 : i < n := by
        rcases Nat.lt_succ_iff_lt_or_eq.mp hi with h | h
        · exact h
        · exact absurd (h ▸ hij) hlast
      have hprev := ih ⟨i, hi2, hij⟩
      by_cases hin : (addr + n) % 2 ^ 64 + 1 ≤ (write_loop mem addr data n).get_size
      · rw [write_one_in_range _ _ _ hin, List.getElem?_set_ne hlast]
        exact hprev
      · rw [write_one_outside _ _ _ hin]
        exact hprev

/-- The read branch and the two error branches leave the store as it is; only a Write
that passed the bounds check runs the write loop. -/
theorem b_transport_memory_cases (m : MemoryModule) (t : tlm_generic_payload) (d : Nat) :
    (m.b_transport t d).module.memory = m.memory ∨
      (t.command = TLM_WRITE_COMMAND ∧
        (m.b_transport t d).module.memory =
          write_loop m.memory t.address t.data_ptr t.data_length) := by
  by_cases h : (t.address + t.data_length) % 2 ^ 64 > m.memory.get_size
  · left; rw [b_transport_out_of_range m t d h]
  · by_cases hw : t.command = TLM_WRITE_COMMAND
    · right
      refine ⟨hw, ?_⟩
      rw [b_transport_write m t d h hw, timeout_check_module]
    · by_cases hr : t.command = TLM_READ_COMMAND
      · left; rw [b_transport_read m t d h hr, timeout_check_module]
      · left; rw [b_transport_other m t d h hw hr]

/-- When `address + length` stays within 64 bits, no call changes a store byte whose index
lies outside `[address, address + length)`. -/
theorem b_transport_frame_no_wrap (m : MemoryModule) (t : tlm_generic_payload) (d j : Nat)
    (hno : t.address + t.data_length ≤ 2 ^ 64)
    (hj : j < t.address ∨ t.address + t.data_length ≤ j) :
    (m.b_transport t d).module.memory.storage[j]? = m.memory.storage[j]? := by
  rcases b_transport_memory_cases m t d with h | ⟨_, h⟩
  · rw [h]
  · rw [h]
    apply write_loop_frame
    intro i hi
    rw [Nat.mod_eq_of_lt (by omega)]
    omega

/-! ## The response status (C11) -/

/-- C11: whatever the store, the transaction (any command, address, length, buffer and
initial status) and the incoming delay, the response status after `b_transport` is one of
OK, address error, command error, generic error, and it is never the incomplete status. -/
theorem b_transport_status_resolved (m : MemoryModule) (t : tlm_generic_payload) (d : Nat) :
    ((m.b_transport t d).trans.response_status = TLM_OK_RESPONSE ∨
      (m.b_transport t d).trans.response_status = TLM_ADDRESS_ERROR_RESPONSE ∨
      (m.b_transport t d).trans.response_status = TLM_COMMAND_ERROR_RESPONSE ∨
      (m.b_transport t d).trans.response_status = TLM_GENERIC_ERROR_RESPONSE) ∧
    (m.b_transport t d).trans.response_status ≠ TLM_INCOMPLETE_RESPONSE := by
  have key : (m.b_transport t d).trans.response_status = TLM_OK_RESPONSE ∨
      (m.b_transport t d).trans.response_status = TLM_ADDRESS_ERROR_RESPONSE ∨
      (m.b_transport t d).trans.response_status = TLM_COMMAND_ERROR_RESPONSE ∨
      (m.b_transport t d).trans.response_status = TLM_GENERIC_ERROR_RESPONSE := by
    by_cases h : (t.address + t.data_length) % 2 ^ 64 > m.memory.get_size
    · rw [b_transport_out_of_range m t d h]
      exact Or.inr (Or.inl rfl)
    · by_cases hw : t.command = TLM_WRITE_COMMAND
      · rw [b_transport_write m t d h hw]
        rcases timeout_check_status
          { m with
            memory := write_loop m.memory t.address t.data_ptr t.data_length
            total_bytes_transferred := (m.total_bytes_transferred + t.data_length) % 2 ^ 64 }
          t ((d + m.memory.default_write_latency) % 2 ^ 64) with h1 | h1
        · exact Or.inl h1
        · exact Or.inr (Or.inr (Or.inr h1))
      · by_cases hr : t.command = TLM_READ_COMMAND
        · rw [b_transport_read m t d h hr]
          rcases timeout_check_status
            { m with
              total_bytes_transferred := (m.total_bytes_transferred + t.data_length) % 2 ^ 64 }
            { t with data_ptr := read_loop m.memory t.address t.data_ptr t.data_length }
            ((d + m.memory.default_read_latency) % 2 ^ 64) with h1 | h1
          · exact Or.inl h1
          · exact Or.inr (Or.inr (Or.inr h1))
        · rw [b_transport_other m t d h hw hr]
          exact Or.inr (Or.inr (Or.inl rfl))
  refine ⟨key, ?_⟩
  intro hinc
  rw [hinc] at key
  rcases key with h | h | h | h <;> cases h

/-! ## The scenario of the specification (C12) -/

/-- C12: on a module with a store of 1024 bytes, write latency 20 ns, read latency 10 ns
and latency ceiling 100 ns, whose counter has room for 8 more bytes: a Write at address
100 of length 8 arriving with 50 ns leaves with 70 ns and status OK and advances the
counter by 8; a following Read at address 100 of length 8 arriving with 90 ns leaves with
100 ns and status OK; and a Read at address 1020 of length 8 gets the address error and
leaves the counter unchanged. -/
theorem spec_scenario (m : MemoryModule) (wdata rdata edata : List Nat) (d : Nat)
    (hsize : m.memory.get_size = 1024)
    (hw : m.memory.default_write_latency = sc_time 20 SC_NS)
    (hr : m.memory.default_read_latency = sc_time 10 SC_NS)
    (hmax : m.max_allowed_latency = sc_time 100 SC_NS)
    (hcount : m.total_bytes_transferred + 8 < 2 ^ 64) :
    (m.b_transport (mk_trans TLM_WRITE_COMMAND 100 wdata 8) (sc_time 50 SC_NS)).delay =
      sc_time 70 SC_NS ∧
    (m.b_transport (mk_trans TLM_WRITE_COMMAND 100 wdata 8)
      (sc_time 50 SC_NS)).trans.response_status = TLM_OK_RESPONSE ∧
    (m.b_transport (mk_trans TLM_WRITE_COMMAND 100 wdata 8)
      (sc_time 50 SC_NS)).module.total_bytes_transferred = m.total_bytes_transferred + 8 ∧
    ((m.b_transport (mk_trans TLM_WRITE_COMMAND 100 wdata 8) (sc_time 50 SC_NS)).module.b_transport
      (mk_trans TLM_READ_COMMAND 100 rdata 8) (sc_time 90 SC_NS)).delay = sc_time 100 SC_NS ∧
    ((m.b_transport (mk_trans TLM_WRITE_COMMAND 100 wdata 8) (sc_time 50 SC_NS)).module.b_transport
      (mk_trans TLM_READ_COMMAND 100 rdata 8) (sc_time 90 SC_NS)).trans.response_status =
      TLM_OK_RESPONSE ∧
    (((m.b_transport (mk_trans TLM_WRITE_COMMAND 100 wdata 8)
      (sc_time 50 SC_NS)).module.b_transport
      (mk_trans TLM_READ_COMMAND 100 rdata 8) (sc_time 90 SC_NS)).module.b_transport
      (mk_trans TLM_READ_COMMAND 1020 edata 8) d).trans.response_status =
      TLM_ADDRESS_ERROR_RESPONSE ∧
    (((m.b_transport (mk_trans TLM_WRITE_COMMAND 100 wdata 8)
      (sc_time 50 SC_NS)).module.b_transport
      (mk_trans TLM_READ_COMMAND 100 rdata 8) (sc_time 90 SC_NS)).module.b_transport
      (mk_trans TLM_READ_COMMAND 1020 edata 8) d).module.total_bytes_transferred =
      ((m.b_transport (mk_trans TLM_WRITE_COMMAND 100 wdata 8)
        (sc_time 50 SC_NS)).module.b_transport
        (mk_trans TLM_READ_COMMAND 100 rdata 8)
        (sc_time 90 SC_NS)).module.total_bytes_transferred := by
  -- the Write
  have hin1 : (mk_trans TLM_WRITE_COMMAND 100 wdata 8).address +
      (mk_trans TLM_WRITE_COMMAND 100 wdata 8).data_length ≤ m.memory.get_size := by
    rw [hsize]; show 100 + 8 ≤ 1024
    decide
  have hk1 := in_range_passes_check _ _ _ hin1
  have e1 := b_transport_write m (mk_trans TLM_WRITE_COMMAND 100 wdata 8) (sc_time 50 SC_NS)
    hk1 rfl
  have hs1 := b_transport_get_size m (mk_trans TLM_WRITE_COMMAND 100 wdata 8) (sc_time 50 SC_NS)
  have hc1 := b_transport_constants m (mk_trans TLM_WRITE_COMMAND 100 wdata 8)
    (sc_time 50 SC_NS)
  have ht1 := b_transport_counter_in_range m (mk_trans TLM_WRITE_COMMAND 100 wdata 8)
    (sc_time 50 SC_NS) (Or.inr rfl) hin1
  -- the Read that follows
  have hin2 : (mk_trans TLM_READ_COMMAND 100 rdata 8).address +
      (mk_trans TLM_READ_COMMAND 100 rdata 8).data_length ≤
      (m.b_transport (mk_trans TLM_WRITE_COMMAND 100 wdata 8)
        (sc_time 50 SC_NS)).module.memory.get_size := by
    rw [hs1, hsize]
    show 100 + 8 ≤ 1024
    decide
  have hk2 := in_range_passes_check _ _ _ hin2
  have e2 := b_transport_read
    (m.b_transport (mk_trans TLM_WRITE_COMMAND 100 wdata 8) (sc_time 50 SC_NS)).module
    (mk_trans TLM_READ_COMMAND 100 rdata 8) (sc_time 90 SC_NS) hk2 rfl
  have hs2 := b_transport_get_size
    (m.b_transport (mk_trans TLM_WRITE_COMMAND 100 wdata 8) (sc_time 50 SC_NS)).module
    (mk_trans TLM_READ_COMMAND 100 rdata 8) (sc_time 90 SC_NS)
  -- the Read past the end
  have hout : (mk_trans TLM_READ_COMMAND 1020 edata 8).address +
      (mk_trans TLM_READ_COMMAND 1020 edata 8).data_length >
      ((m.b_transport (mk_trans TLM_WRITE_COMMAND 100 wdata 8)
        (sc_time 50 SC_NS)).module.b_transport
        (mk_trans TLM_READ_COMMAND 100 rdata 8)
        (sc_time 90 SC_NS)).module.memory.get_size := by
    rw [hs2, hs1, hsize]
    show 1020 + 8 > 1024
    decide
  have e3 := b_transport_bounds_no_wrap _ (mk_trans TLM_READ_COMMAND 1020 edata 8) d
    (show 1020 + 8 < 2 ^ 64 by decide) hout
  refine ⟨?_, ?_, ?_, ?_, ?_, e3.1, ?_⟩
  · rw [e1, timeout_check_delay, hw]; rfl
  · rw [e1]
    apply timeout_check_ok
    rw [hw]
    show sc_time 50 SC_NS + sc_time 20 SC_NS ≤ m.max_allowed_latency
    rw [hmax]; decide
  · rw [ht1]
    exact Nat.mod_eq_of_lt hcount
  · rw [e2, timeout_check_delay, hc1.1, hr]; rfl
  · rw [e2]
    apply timeout_check_ok
    refine Nat.le_trans (Nat.mod_le _ _) ?_
    show sc_time 90 SC_NS +
      (m.b_transport (mk_trans TLM_WRITE_COMMAND 100 wdata 8)
        (sc_time 50 SC_NS)).module.memory.default_read_latency ≤
      (m.b_transport (mk_trans TLM_WRITE_COMMAND 100 wdata 8)
        (sc_time 50 SC_NS)).module.max_allowed_latency
    rw [hc1.1, hc1.2.2, hr, hmax]; decide
  · rw [e3.2.1]

/-- The scenario run on a zero-filled store of 1024 bytes with the counter at 0. -/
theorem spec_scenario_witness :
    (module_with (List.replicate 1024 0) 0).memory.get_size = 1024 ∧
    (module_with (List.replicate 1024 0) 0).memory.default_write_latency = sc_time 20 SC_NS ∧
    (module_with (List.replicate 1024 0) 0).memory.default_read_latency = sc_time 10 SC_NS ∧
    (module_with (List.replicate 1024 0) 0).max_allowed_latency = sc_time 100 SC_NS ∧
    (module_with (List.replicate 1024 0) 0).total_bytes_transferred + 8 < 2 ^ 64 ∧
    ((module_with (List.replicate 1024 0) 0).b_transport
      (mk_trans TLM_WRITE_COMMAND 100 [1, 2, 3, 4, 5, 6, 7, 8] 8) (sc_time 50 SC_NS)).delay =
      sc_time 70 SC_NS ∧
    ((module_with (List.replicate 1024 0) 0).b_transport
      (mk_trans TLM_WRITE_COMMAND 100 [1, 2, 3, 4, 5, 6, 7, 8] 8)
      (sc_time 50 SC_NS)).trans.response_status = TLM_OK_RESPONSE :=
  ⟨List.length_replicate _ _, rfl, rfl, rfl, by decide,
    (spec_scenario (module_with (List.replicate 1024 0) 0) [1, 2, 3, 4, 5, 6, 7, 8]
      [0, 0, 0, 0, 0, 0, 0, 0] [0, 0, 0, 0, 0, 0, 0, 0] 0
      (List.length_replicate _ _) rfl rfl rfl (by decide)).1,
    (spec_scenario (module_with (List.replicate 1024 0) 0) [1, 2, 3, 4, 5, 6, 7, 8]
      [0, 0, 0, 0, 0, 0, 0, 0] [0, 0, 0, 0, 0, 0, 0, 0] 0
      (List.length_replicate _ _) rfl rfl rfl (by decide)).2.1⟩

/-! ## The transaction the generator builds (C13, C17, C19) -/

theorem build_transaction_address (rnd : Nat → Nat) (scratch : List Nat) :
    (TrafficGenerator.build_transaction rnd scratch).1.address =
      rnd 1 % (TrafficGenerator.memory_size - TrafficGenerator.max_burst_length) := by
  unfold TrafficGenerator.build_transaction
  simp only
  split <;> rfl

theorem build_transaction_length (rnd : Nat → Nat) (scratch : List Nat) :
    (TrafficGenerator.build_transaction rnd scratch).1.data_length =
      rnd 2 % TrafficGenerator.max_burst_length + 1 := by
  unfold TrafficGenerator.build_transaction
  simp only
  split <;> rfl

theorem build_transaction_delay (rnd : Nat → Nat) (scratch : List Nat) :
    (TrafficGenerator.build_transaction rnd scratch).2 =
      sc_time (rnd 3 % 10) SC_NS + TrafficGenerator.cycle_period := by
  have hfit : sc_time (rnd 3 % 10) SC_NS + TrafficGenerator.cycle_period < 2 ^ 64 := by
    have hmod : rnd 3 % 10 < 10 := Nat.mod_lt _ (by decide)
    show rnd 3 % 10 * 1000 + 10000 < 2 ^ 64
    omega
  unfold TrafficGenerator.build_transaction
  simp only
  split <;> exact Nat.mod_eq_of_lt hfit

theorem build_transaction_command (rnd : Nat → Nat) (scratch : List Nat) :
    (TrafficGenerator.build_transaction rnd scratch).1.command = TLM_READ_COMMAND ∨
    (TrafficGenerator.build_transaction rnd scratch).1.command = TLM_WRITE_COMMAND := by
  unfold TrafficGenerator.build_transaction
  simp only
  split
  · right; rfl
  · left; rfl

/-- The transaction the generator builds lies within the first 1024 bytes. -/
theorem build_transaction_in_range (rnd : Nat → Nat) (scratch : List Nat) :
    (TrafficGenerator.build_transaction rnd scratch).1.address +
      (TrafficGenerator.build_transaction rnd scratch).1.data_length ≤ 1024 := by
  rw [build_transaction_address, build_transaction_length]
  have h1 : rnd 1 % (TrafficGenerator.memory_size - TrafficGenerator.max_burst_length) <
      TrafficGenerator.memory_size - TrafficGenerator.max_burst_length :=
    Nat.mod_lt _ (by decide)
  have h2 : rnd 2 % TrafficGenerator.max_burst_length < TrafficGenerator.max_burst_length :=
    Nat.mod_lt _ (by decide)
  have e1 : TrafficGenerator.memory_size = 1024 := rfl
  have e2 : TrafficGenerator.max_burst_length = 16 := rfl
  rw [e1, e2] at h1
  rw [e2] at h2
  rw [e1, e2]
  omega

/-- The module that the constructor builds is as constructed. -/
theorem SC_CTOR_as_constructed : as_constructed MemoryModule.SC_CTOR :=
  ⟨SC_CTOR_constants.2.2.2, rfl, rfl, rfl⟩

/-- A call of `b_transport` on a module as constructed leaves a module as constructed. -/
theorem b_transport_as_constructed (m : MemoryModule) (t : tlm_generic_payload) (d : Nat)
    (hm : as_constructed m) : as_constructed (m.b_transport t d).module := by
  obtain ⟨h1, h2, h3, h4⟩ := hm
  have hc := b_transport_constants m t d
  exact ⟨by rw [b_transport_get_size]; exact h1, by rw [hc.1]; exact h2,
    by rw [hc.2.1]; exact h3, by rw [hc.2.2]; exact h4⟩

/-- C13: whatever values `rand()` returns, the transaction built by `generate_traffic` has
its address in `[0, memory_size - max_burst_length)` and its length in
`[1, max_burst_length]`, so address + length is at most `memory_size`, which is 1024; and
`b_transport` on a memory module as constructed never answers it with the address error. -/
theorem generator_headroom (rnd : Nat → Nat) (scratch : List Nat) (m : MemoryModule)
    (hm : as_constructed m) :
    (TrafficGenerator.build_transaction rnd scratch).1.address <
      TrafficGenerator.memory_size - TrafficGenerator.max_burst_length ∧
    1 ≤ (TrafficGenerator.build_transaction rnd scratch).1.data_length ∧
    (TrafficGenerator.build_transaction rnd scratch).1.data_length ≤
      TrafficGenerator.max_burst_length ∧
    (TrafficGenerator.build_transaction rnd scratch).1.address +
      (TrafficGenerator.build_transaction rnd scratch).1.data_length ≤
      TrafficGenerator.memory_size ∧
    TrafficGenerator.memory_size = 1024 ∧
    (m.b_transport (TrafficGenerator.build_transaction rnd scratch).1
      (TrafficGenerator.build_transaction rnd scratch).2).trans.response_status ≠
      TLM_ADDRESS_ERROR_RESPONSE := by
  have hin := build_transaction_in_range rnd scratch
  refine ⟨?_, ?_, ?_, hin, rfl, ?_⟩
  · rw [build_transaction_address]
    exact Nat.mod_lt _ (by decide)
  · rw [build_transaction_length]
    exact Nat.le_add_left 1 _
  · rw [build_transaction_length]
    have h2 : rnd 2 % TrafficGenerator.max_burst_length < TrafficGenerator.max_burst_length :=
      Nat.mod_lt _ (by decide)
    omega
  · intro hs
    have hgt := (b_transport_address_error_iff m _ _).mp hs
    have hle := Nat.mod_le
      ((TrafficGenerator.build_transaction rnd scratch).1.address +
        (TrafficGenerator.build_transaction rnd scratch).1.data_length) (2 ^ 64)
    rw [hm.1] at hgt
    omega

/-- With `rand()` returning 5 every time, the generator builds a Write at address 5 of
length 6, which the module as constructed does not answer with the address error. -/
theorem generator_headroom_witness :
    as_constructed MemoryModule.SC_CTOR ∧
    (TrafficGenerator.build_transaction (fun _ => 5) (List.replicate 16 0)).1.address = 5 ∧
    (TrafficGenerator.build_transaction (fun _ => 5) (List.replicate 16 0)).1.data_length = 6 ∧
    (MemoryModule.SC_CTOR.b_transport
      (TrafficGenerator.build_transaction (fun _ => 5) (List.replicate 16 0)).1
      (TrafficGenerator.build_transaction (fun _ => 5)
        (List.replicate 16 0)).2).trans.response_status ≠ TLM_ADDRESS_ERROR_RESPONSE :=
  ⟨SC_CTOR_as_constructed, by decide, by decide,
    (generator_headroom (fun _ => 5) (List.replicate 16 0) MemoryModule.SC_CTOR
      SC_CTOR_as_constructed).2.2.2.2.2⟩

/-- On a module as constructed the transaction the generator builds stays within the
latency ceiling: the status is OK. -/
theorem generated_status_ok (rnd : Nat → Nat) (scratch : List Nat) (m : MemoryModule)
    (hm : as_constructed m) :
    (m.b_transport (TrafficGenerator.build_transaction rnd scratch).1
      (TrafficGenerator.build_transaction rnd scratch).2).trans.response_status =
      TLM_OK_RESPONSE := by
  obtain ⟨hsize, hr, hw, hmax⟩ := hm
  have hin : (TrafficGenerator.build_transaction rnd scratch).1.address +
      (TrafficGenerator.build_transaction rnd scratch).1.data_length ≤ m.memory.get_size := by
    have := build_transaction_in_range rnd scratch
    rw [hsize]; omega
  have hk := in_range_passes_check _ _ _ hin
  have hd : (TrafficGenerator.build_transaction rnd scratch).2 = rnd 3 % 10 * 1000 + 10000 :=
    build_transaction_delay rnd scratch
  have e10 : sc_time 10 SC_NS = 10000 := rfl
  have e20 : sc_time 20 SC_NS = 20000 := rfl
  have e100 : sc_time 100 SC_NS = 100000 := rfl
  rw [e10] at hr
  rw [e20] at hw
  rw [e100] at hmax
  have hmod : rnd 3 % 10 < 10 := Nat.mod_lt _ (by decide)
  rcases build_transaction_command rnd scratch with hc | hc
  · rw [b_transport_read m _ _ hk hc]
    apply timeout_check_ok
    refine Nat.le_trans (Nat.mod_le _ _) ?_
    show (TrafficGenerator.build_transaction rnd scratch).2 + m.memory.default_read_latency ≤
      m.max_allowed_latency
    omega
  · rw [b_transport_write m _ _ hk hc]
    apply timeout_check_ok
    refine Nat.le_trans (Nat.mod_le _ _) ?_
    show (TrafficGenerator.build_transaction rnd scratch).2 + m.memory.default_write_latency ≤
      m.max_allowed_latency
    omega

/-- One whole iteration of the generator against a module as constructed writes no
diagnostic and leaves a module as constructed. -/
theorem generate_traffic_silent (rnd : Nat → Nat) (scratch : List Nat) (m : MemoryModule)
    (hm : as_constructed m) :
    (TrafficGenerator.generate_traffic m rnd scratch).2 = none ∧
    as_constructed (TrafficGenerator.generate_traffic m rnd scratch).1 := by
  constructor
  · show TrafficGenerator.diagnostic
      (m.b_transport (TrafficGenerator.build_transaction rnd scratch).1
        (TrafficGenerator.build_transaction rnd scratch).2).trans.response_status _ _ = none
    rw [generated_status_ok rnd scratch m hm]
    rfl
  · exact b_transport_as_constructed m _ _ hm

/-- C17: whatever values `rand()` returns, the incoming delay built by one iteration of
`generate_traffic` lies between 10 ns and 19 ns, and `b_transport` on a memory module as
constructed answers the transaction with status OK, never with the generic error, with
an outgoing delay of at most 39 ns. -/
theorem generated_traffic_accepted (rnd : Nat → Nat) (scratch : List Nat) (m : MemoryModule)
    (hm : as_constructed m) :
    sc_time 10 SC_NS ≤ (TrafficGenerator.build_transaction rnd scratch).2 ∧
    (TrafficGenerator.build_transaction rnd scratch).2 ≤ sc_time 19 SC_NS ∧
    (m.b_transport (TrafficGenerator.build_transaction rnd scratch).1
      (TrafficGenerator.build_transaction rnd scratch).2).trans.response_status =
      TLM_OK_RESPONSE ∧
    (m.b_transport (TrafficGenerator.build_transaction rnd scratch).1
      (TrafficGenerator.build_transaction rnd scratch).2).trans.response_status ≠
      TLM_GENERIC_ERROR_RESPONSE ∧
    (m.b_transport (TrafficGenerator.build_transaction rnd scratch).1
      (TrafficGenerator.build_transaction rnd scratch).2).delay ≤ sc_time 39 SC_NS := by
  have hok := generated_status_ok rnd scratch m hm
  obtain ⟨hsize, hr, hw, hmax⟩ := hm
  have hin : (TrafficGenerator.build_transaction rnd scratch).1.address +
      (TrafficGenerator.build_transaction rnd scratch).1.data_length ≤ m.memory.get_size := by
    have := build_transaction_in_range rnd scratch
    rw [hsize]; omega
  have hk := in_range_passes_check _ _ _ hin
  have hd : (TrafficGenerator.build_transaction rnd scratch).2 = rnd 3 % 10 * 1000 + 10000 :=
    build_transaction_delay rnd scratch
  have e10 : sc_time 10 SC_NS = 10000 := rfl
  have e19 : sc_time 19 SC_NS = 19000 := rfl
  have e20 : sc_time 20 SC_NS = 20000 := rfl
  have e39 : sc_time 39 SC_NS = 39000 := rfl
  have e100 : sc_time 100 SC_NS = 100000 := rfl
  rw [e10] at hr
  rw [e20] at hw
  rw [e100] at hmax
  have hmod : rnd 3 % 10 < 10 := Nat.mod_lt _ (by decide)
  refine ⟨by omega, by omega, hok, by rw [hok]; decide, ?_⟩
  rcases build_transaction_command rnd scratch with hc | hc
  · rw [b_transport_read m _ _ hk hc, timeout_check_delay]
    refine Nat.le_trans (Nat.mod_le _ _) ?_
    omega
  · rw [b_transport_write m _ _ hk hc, timeout_check_delay]
    refine Nat.le_trans (Nat.mod_le _ _) ?_
    omega

/-- With `rand()` returning 9 every time, the generator builds a Write arriving with
19 ns, which the module as constructed accepts. -/
theorem generated_traffic_accepted_witness :
    as_constructed MemoryModule.SC_CTOR ∧
    (TrafficGenerator.build_transaction (fun _ => 9) (List.replicate 16 0)).2 =
      sc_time 19 SC_NS ∧
    (MemoryModule.SC_CTOR.b_transport
      (TrafficGenerator.build_transaction (fun _ => 9) (List.replicate 16 0)).1
      (TrafficGenerator.build_transaction (fun _ => 9)
        (List.replicate 16 0)).2).trans.response_status = TLM_OK_RESPONSE :=
  ⟨SC_CTOR_as_constructed, by decide,
    (generated_traffic_accepted (fun _ => 9) (List.replicate 16 0) MemoryModule.SC_CTOR
      SC_CTOR_as_constructed).2.2.1⟩

theorem fill_loop_succ (rnd : Nat → Nat) (next : Nat) (data : List Nat) (n : Nat) :
    TrafficGenerator.fill_loop rnd next data (n + 1) =
      (TrafficGenerator.fill_loop rnd next data n).set n (rnd (next + n) % 256) := by
  unfold TrafficGenerator.fill_loop
  rw [List.range_succ, List.foldl_append]
  rfl

theorem fill_loop_length (rnd : Nat → Nat) (next : Nat) (data : List Nat) (n : Nat) :
    (TrafficGenerator.fill_loop rnd next data n).length = data.length :=
  foldl_set_length _ (fun i => i) (fun i => rnd (next + i) % 256) data

/-- After the fill loop, every index below `length` of a buffer that has room for it holds
the byte drawn for it. -/
theorem fill_loop_byte (rnd : Nat → Nat) (next : Nat) (data : List Nat) :
    ∀ n : Nat, n ≤ data.length → ∀ i, i < n →
      (TrafficGenerator.fill_loop rnd next data n)[i]? = some (rnd (next + i) % 256) := by
  intro n
  induction n with
  | zero => intro _ i hi; exact absurd hi (Nat.not_lt_zero i)
  | succ n ih =>
    intro hn i hi
    rw [fill_loop_succ]
    by_cases hlast : n = i
    · have hlen : n < (TrafficGenerator.fill_loop rnd next data n).length := by
        rw [fill_loop_length]; exact hn
      rw [← hlast, List.getElem?_set_self hlen]
    · rw [List.getElem?_set_ne hlast]
      exact ih (Nat.le_of_succ_le hn) i (by omega)

/-- C19: whatever value `rand()` returns, the length chosen by `generate_traffic` is at
most `max_burst_length`, which is 16 and the size of the local buffer, so every index
below the length that the fill loop of a Write writes lies inside the buffer: the buffer
keeps its size and holds the byte drawn for each such index. -/
theorem generator_buffer_safety (rnd : Nat → Nat) (scratch : List Nat)
    (hs : scratch.length = TrafficGenerator.max_burst_length) :
    (TrafficGenerator.build_transaction rnd scratch).1.data_length ≤
      TrafficGenerator.max_burst_length ∧
    TrafficGenerator.max_burst_length = 16 ∧
    (∀ i, i < (TrafficGenerator.build_transaction rnd scratch).1.data_length →
      i < scratch.length) ∧
    (TrafficGenerator.fill_loop rnd 4 scratch
      (TrafficGenerator.build_transaction rnd scratch).1.data_length).length =
      TrafficGenerator.max_burst_length ∧
    (∀ i, i < (TrafficGenerator.build_transaction rnd scratch).1.data_length →
      (TrafficGenerator.fill_loop rnd 4 scratch
        (TrafficGenerator.build_transaction rnd scratch).1.data_length)[i]? =
        some (rnd (4 + i) % 256)) := by
  have hlen : (TrafficGenerator.build_transaction rnd scratch).1.data_length ≤
      TrafficGenerator.max_burst_length := by
    rw [build_transaction_length]
    have h2 : rnd 2 % TrafficGenerator.max_burst_length < TrafficGenerator.max_burst_length :=
      Nat.mod_lt _ (by decide)
    omega
  refine ⟨hlen, rfl, ?_, ?_, ?_⟩
  · intro i hi
    rw [hs]
    exact Nat.lt_of_lt_of_le hi hlen
  · rw [fill_loop_length, hs]
  · intro i hi
    exact fill_loop_byte rnd 4 scratch _ (by rw [hs]; exact hlen) i hi

/-- With `rand()` returning 15 every time, the length is 16, the size of the buffer. -/
theorem generator_buffer_safety_witness :
    (List.replicate 16 0).length = TrafficGenerator.max_burst_length ∧
    (TrafficGenerator.build_transaction (fun _ => 15) (List.replicate 16 0)).1.data_length =
      16 ∧
    (TrafficGenerator.build_transaction (fun _ => 15) (List.replicate 16 0)).1.data_length ≤
      TrafficGenerator.max_burst_length :=
  ⟨by decide, by decide,
    (generator_buffer_safety (fun _ => 15) (List.replicate 16 0) (by decide)).1⟩

/-! ## The diagnostics of the generator (C14) -/

theorem message_ne (a b x y : String) (h : a.data ≠ b.data) :
    some (a ++ x ++ y) ≠ some (b ++ x ++ y) := by
  intro heq
  have h1 := congrArg String.data (Option.some.inj heq)
  simp only [String.data_append] at h1
  exact h (List.append_cancel_right (List.append_cancel_right h1))

/-- C14: for every command and address, the status switch of `generate_traffic` yields no
message for OK, yields a message for each of the incomplete status, the address error,
the command error and the generic error, and the messages of two different statuses that
yield a message differ. -/
theorem diagnostic_distinguishes (c : tlm_command) (addr : Nat) :
    TrafficGenerator.diagnostic TLM_OK_RESPONSE c addr = none ∧
    (TrafficGenerator.diagnostic TLM_INCOMPLETE_RESPONSE c addr).isSome = true ∧
    (TrafficGenerator.diagnostic TLM_ADDRESS_ERROR_RESPONSE c addr).isSome = true ∧
    (TrafficGenerator.diagnostic TLM_COMMAND_ERROR_RESPONSE c addr).isSome = true ∧
    (TrafficGenerator.diagnostic TLM_GENERIC_ERROR_RESPONSE c addr).isSome = true ∧
    (∀ s1 s2 : tlm_response_status,
      (TrafficGenerator.diagnostic s1 c addr).isSome = true → s1 ≠ s2 →
        TrafficGenerator.diagnostic s1 c addr ≠ TrafficGenerator.diagnostic s2 c addr) := by
  refine ⟨rfl, rfl, rfl, rfl, rfl, ?_⟩
  intro s1 s2 hsome hne
  cases c <;> cases s1 <;> cases s2 <;>
    first
    | exact absurd rfl hne
    | exact Bool.noConfusion hsome
    | exact (fun h => Option.noConfusion h)
    | exact message_ne _ _ _ _ (by decide)

/-- The messages for the incomplete status and for the address error at address 255. -/
theorem diagnostic_distinguishes_witness :
    (TrafficGenerator.diagnostic TLM_INCOMPLETE_RESPONSE TLM_READ_COMMAND 255).isSome = true ∧
    TLM_INCOMPLETE_RESPONSE ≠ TLM_ADDRESS_ERROR_RESPONSE ∧
    TrafficGenerator.diagnostic TLM_INCOMPLETE_RESPONSE TLM_READ_COMMAND 255 ≠
      TrafficGenerator.diagnostic TLM_ADDRESS_ERROR_RESPONSE TLM_READ_COMMAND 255 :=
  ⟨rfl, by decide,
    (diagnostic_distinguishes TLM_READ_COMMAND 255).2.2.2.2.2
      TLM_INCOMPLETE_RESPONSE TLM_ADDRESS_ERROR_RESPONSE rfl (by decide)⟩

/-! ## Which store bytes a call touches (C15, C16, C18) -/

/-- C15, evaluated where the code leaves the claim: on the store `[1, 2, 3, 4]` a Write at
address `2 ^ 64 - 1` of length 2 with the data `[7, 9]` passes the bounds check, because
the 64-bit sum `address + length` wraps to 1, and its second iteration writes at the
64-bit sum `address + 1`, which is 0: the store byte at index 0, which lies below the
address and so outside `[address, address + length)`, changes from 1 to 7. -/
theorem write_wraps_to_start_of_store :
    0 < (mk_trans TLM_WRITE_COMMAND (2 ^ 64 - 1) [7, 9] 2).address ∧
    (module_with [1, 2, 3, 4] 0).memory.storage[0]? = some 1 ∧
    ((module_with [1, 2, 3, 4] 0).b_transport
      (mk_trans TLM_WRITE_COMMAND (2 ^ 64 - 1) [7, 9] 2) 0).module.memory.storage[0]? =
      some 7 ∧
    ((module_with [1, 2, 3, 4] 0).b_transport
      (mk_trans TLM_WRITE_COMMAND (2 ^ 64 - 1) [7, 9] 2) 0).module.memory.storage =
      [7, 2, 3, 4] ∧
    ((module_with [1, 2, 3, 4] 0).b_transport
      (mk_trans TLM_WRITE_COMMAND (2 ^ 64 - 1) [7, 9] 2) 0).trans.response_status =
      TLM_OK_RESPONSE := by
  decide

/-- C16: whatever the store, the address, the length, the buffer and the incoming delay,
and whatever the resulting status, a Read leaves the store contents as they were. -/
theorem read_leaves_store_unchanged (m : MemoryModule) (t : tlm_generic_payload) (d : Nat)
    (hc : t.command = TLM_READ_COMMAND) :
    (m.b_transport t d).module.memory.storage = m.memory.storage := by
  rcases b_transport_memory_cases m t d with h | ⟨hw, _⟩
  · rw [h]
  · rw [hc] at hw
    cases hw

/-- A Read of 2 bytes leaves the store `[5, 6, 7]` as it was. -/
theorem read_leaves_store_unchanged_witness :
    (mk_trans TLM_READ_COMMAND 1 [0, 0] 2).command = TLM_READ_COMMAND ∧
    ((module_with [5, 6, 7] 0).b_transport (mk_trans TLM_READ_COMMAND 1 [0, 0] 2)
      0).module.memory.storage = [5, 6, 7] :=
  ⟨rfl, read_leaves_store_unchanged (module_with [5, 6, 7] 0)
    (mk_trans TLM_READ_COMMAND 1 [0, 0] 2) 0 rfl⟩

/-- C18: after an in-range Write of length L on a store whose size is a 64-bit value, with
a data buffer of at least L bytes, every store byte at address + i for i below L equals
the byte the data pointer points at, the first byte of the buffer. -/
theorem write_moves_first_byte (m : MemoryModule) (t : tlm_generic_payload) (d i : Nat)
    (hc : t.command = TLM_WRITE_COMMAND)
    (hin : t.address + t.data_length ≤ m.memory.get_size)
    (hsize : m.memory.get_size < 2 ^ 64)
    (hbuf : t.data_length ≤ t.data_ptr.length)
    (hi : i < t.data_length) :
    (m.b_transport t d).module.memory.storage[t.address + i]? = t.data_ptr[0]? := by
  have hk := in_range_passes_check _ _ _ hin
  rw [b_transport_write m t d hk hc, timeout_check_module]
  have hhit := write_loop_hit m.memory t.address t.data_ptr (t.address + i) (by omega)
    t.data_length ⟨i, hi, Nat.mod_eq_of_lt (by omega)⟩
  have hpos : 0 < t.data_ptr.length := by omega
  have h0 : t.data_ptr[0]? = some (t.data_ptr.getD 0 0) := by
    rw [List.getD_eq_getElem?_getD, List.getElem?_eq_getElem hpos]
    rfl
  show (write_loop m.memory t.address t.data_ptr t.data_length).storage[t.address + i]? = _
  rw [hhit, h0]

/-- A Write of the bytes `[7, 8, 9]` at address 1 puts the byte 7 at address 3. -/
theorem write_moves_first_byte_witness :
    (mk_trans TLM_WRITE_COMMAND 1 [7, 8, 9] 3).command = TLM_WRITE_COMMAND ∧
    (mk_trans TLM_WRITE_COMMAND 1 [7, 8, 9] 3).address +
      (mk_trans TLM_WRITE_COMMAND 1 [7, 8, 9] 3).data_length ≤
      (module_with [0, 0, 0, 0, 0] 0).memory.get_size ∧
    (module_with [0, 0, 0, 0, 0] 0).memory.get_size < 2 ^ 64 ∧
    (mk_trans TLM_WRITE_COMMAND 1 [7, 8, 9] 3).data_length ≤
      (mk_trans TLM_WRITE_COMMAND 1 [7, 8, 9] 3).data_ptr.length ∧
    2 < (mk_trans TLM_WRITE_COMMAND 1 [7, 8, 9] 3).data_length ∧
    ((module_with [0, 0, 0, 0, 0] 0).b_transport (mk_trans TLM_WRITE_COMMAND 1 [7, 8, 9] 3)
      0).module.memory.storage[1 + 2]? = some 7 :=
  ⟨rfl, by decide, by decide, by decide, by decide,
    write_moves_first_byte (module_with [0, 0, 0, 0, 0] 0)
      (mk_trans TLM_WRITE_COMMAND 1 [7, 8, 9] 3) 0 2 rfl (by decide) (by decide) (by decide)
      (by decide)⟩

end MemorySim
